import Mathlib

/-!
Verification of the stdio bridge in `bridge-server/rns_bridge.py`.

The bridge's state (`RNSBridge.__init__`), its command dispatch
(`handle_command`), the packet-send path (`send_packet`), the transport
registry operations (`add_rnode_transport`, `remove_rnode_transport`,
`list_transports`), the link-established callback (`link_established`),
the stdin intake loop (`listen_stdin`) and the event emitter
(`send_message`) are embedded shallowly below.  External behaviour of the
RNS library (whether a packet send yields a receipt, whether interface
construction raises) is captured by an explicit environment record `Env`;
machine time (`time.time()`) is passed in as an abstract integer tick.
-/

/-- JSON values as handled by `json.loads` / `json.dumps`.  Numbers are
modelled as integers, which covers every numeric field the bridge
produces or consumes (config values, counters, totals). -/
inductive JVal where
  | jnull : JVal
  | jbool : Bool → JVal
  | jnum : Int → JVal
  | jstr : String → JVal
  | jarr : List JVal → JVal
  | jobj : List (String × JVal) → JVal
deriving Repr

/-- Python `dict.get(k)` on a JSON-decoded object.  `json.loads` keeps the
last occurrence of a duplicated key, so lookup returns the last match. -/
def getField (l : List (String × JVal)) (k : String) : Option JVal :=
  match l with
  | [] => none
  | (k', v) :: rest =>
    match getField rest k with
    | some w => some w
    | none => if k' = k then some v else none

/-- Python truthiness of a JSON value (`if dest_hash and text:` etc.). -/
def jtruthy : JVal → Bool
  | .jnull => false
  | .jbool b => b
  | .jnum n => n != 0
  | .jstr s => !s.isEmpty
  | .jarr l => !l.isEmpty
  | .jobj l => !l.isEmpty

/-- Truthiness of `command.get(k)`: a missing key yields Python `None`,
which is falsy. -/
def optTruthy (o : Option JVal) : Bool :=
  jtruthy (o.getD .jnull)

/-- One tracked RNode transport: the entry stored in
`self.rnode_interfaces[port_path]` (the live `interface` object itself is
opaque and omitted; `config`, the counters and the flag are kept). -/
structure TransportInfo where
  config : List (String × JVal)
  messages_sent : Nat
  messages_received : Nat
  connected : Bool
deriving Repr

/-- The bridge's mutable registries from `RNSBridge.__init__`:
`self.destinations` (remote destination references, of which only the key
set is observable here — the cached objects are opaque RNS handles),
`self.links`, `self.rnode_interfaces`, plus `self.running` and the hash of
the local destination.  Python dicts are association lists with unique
keys; insertion order is preserved. -/
structure BridgeState where
  destinations : List String
  links : List (String × String)
  rnode_interfaces : List (String × TransportInfo)
  running : Bool
  local_hash : String
deriving Repr

/-- Environment: outcomes of the external RNS calls a command can make. -/
structure Env where
  /-- Outcome of `RNS.Packet(destination, data); packet.send()`:
  `.error e` models an exception raised there, `.ok (some r)` a receipt
  whose hash formats to `r`, `.ok none` a `None` receipt. -/
  sendOutcome : Except String (Option String)
  /-- Value `some e` models `RNS.Interfaces.RNodeInterface.RNodeInterface(...)`
  raising with message `e`; `none` models successful construction. -/
  attachResult : Option String
  /-- Value `some e` models `interface.detach()` raising; `none` success. -/
  detachResult : Option String
  /-- Value `some e` models `self.destination.announce()` raising. -/
  announceResult : Option String

/-- One event handed to `send_message`: the `msg_type` tag and the `data`
field map, before serialization and timestamping. -/
structure OutMsg where
  type : String
  data : List (String × JVal)
deriving Repr

def mkMsg (t : String) (d : List (String × JVal)) : OutMsg := ⟨t, d⟩

/-- Python `bytes.fromhex` succeeds exactly on an even number of hex digits
(ASCII space handling aside, which the bridge never feeds it). -/
def fromhexOk (s : String) : Bool :=
  s.length % 2 == 0 && s.data.all (fun c => c.isDigit || ('a' ≤ c && c ≤ 'f') || ('A' ≤ c && c ≤ 'F'))

/-- Model of `RNSBridge.send_packet(dest_hash, text)` (rns_bridge.py:251-296).
`dest_hash` and `text` arrive as arbitrary JSON values from
`handle_command`.  `bytes.fromhex` raises on a non-string or malformed
argument; `text.encode('utf-8')` raises on a non-string; both are caught
by the enclosing `except`, which emits `send_failed`.  The destination
cache gains the key verbatim (no case normalization) before the packet is
built, so it is updated even when the send itself later fails.  Exactly
one event is emitted on every path. -/
def send_packet (st : BridgeState) (env : Env) (dest_hash text : JVal) :
    BridgeState × List OutMsg :=
  match dest_hash with
  | .jstr s =>
    if fromhexOk s then
      let st' :=
        if st.destinations.contains s then st
        else { st with destinations := st.destinations ++ [s] }
      match text with
      | .jstr _ =>
        match env.sendOutcome with
        | .ok (some r) =>
          (st', [mkMsg "send_success"
            [("destination_hash", .jstr s), ("packet_id", .jstr r)]])
        | .ok none =>
          (st', [mkMsg "send_failed"
            [("destination_hash", .jstr s), ("error", .jstr "No receipt received")]])
        | .error e =>
          (st', [mkMsg "send_failed"
            [("destination_hash", .jstr s), ("error", .jstr e)]])
      | _ =>
        (st', [mkMsg "send_failed"
          [("destination_hash", .jstr s),
           ("error", .jstr "AttributeError: encode")]])
    else
      (st, [mkMsg "send_failed"
        [("destination_hash", .jstr s),
         ("error", .jstr "ValueError: non-hexadecimal number found in fromhex arg")]])
  | v =>
    (st, [mkMsg "send_failed"
      [("destination_hash", v),
       ("error", .jstr "TypeError: fromhex argument must be str")]])

/-- Lowercase hex digit, as produced by `RNS.hexrep`. -/
def hexDigit (n : Nat) : Char :=
  "0123456789abcdef".data.getD (n % 16) '0'

/-- Model of `RNS.hexrep(bytes, delimit=False)`: each byte to two lowercase hex
digits. -/
def hexrep (bs : List Nat) : String :=
  String.mk (bs.flatMap (fun b => [hexDigit (b / 16), hexDigit b]))

/-- Python `d[k] = v`: replace in place when the key exists, append
otherwise. -/
def dictInsert (k : String) (v : α) : List (String × α) → List (String × α)
  | [] => [(k, v)]
  | (k', v') :: rest =>
    if k' = k then (k, v) :: rest else (k', v') :: dictInsert k v rest

def dictLookup (k : String) : List (String × α) → Option α
  | [] => none
  | (k', v) :: rest => if k' = k then some v else dictLookup k rest

/-- Model of `RNSBridge.link_established(link)` (rns_bridge.py:238-247): stores the
link under the lowercase-hex destination hash and emits one event.  The
link object is abstracted to its formatted `link_id`. -/
def link_established (st : BridgeState) (destHashBytes : List Nat)
    (linkId : String) : BridgeState × List OutMsg :=
  let key := hexrep destHashBytes
  ({ st with links := dictInsert key linkId st.links },
   [mkMsg "link_established"
     [("destination_hash", .jstr key), ("link_id", .jstr linkId)]])

/-- Python `config.get(name, default) if config else default`
(rns_bridge.py:322-327): Python truthiness makes both a missing (`None`)
and an empty config dict fall back to the default wholesale. -/
def cfgGet (config : Option (List (String × JVal))) (k : String) (d : JVal) : JVal :=
  match config with
  | none => d
  | some c => if c.isEmpty then d else (getField c k).getD d

/-- The `interface_config` dict built in `add_rnode_transport`
(rns_bridge.py:320-328). -/
def mkInterfaceConfig (port_path : String)
    (config : Option (List (String × JVal))) : List (String × JVal) :=
  [("port", .jstr port_path),
   ("speed", cfgGet config "baudRate" (.jnum 115200)),
   ("frequency", cfgGet config "frequency" (.jnum 915000000)),
   ("bandwidth", cfgGet config "bandwidth" (.jnum 125000)),
   ("txpower", cfgGet config "txPower" (.jnum 17)),
   ("spreadingfactor", cfgGet config "spreadingFactor" (.jnum 7)),
   ("codingrate", cfgGet config "codingRate" (.jnum 5))]

/-- Model of `RNSBridge.add_rnode_transport(port_path, config)`
(rns_bridge.py:309-370).  A duplicate handle returns `False` before any
state change or emission; an interface-construction exception emits
`transport_error` and leaves the registry untouched; success appends the
entry and emits `transport_added`.  Returns (state, events, return value). -/
def add_rnode_transport (st : BridgeState) (env : Env) (port_path : String)
    (config : Option (List (String × JVal))) :
    BridgeState × List OutMsg × Bool :=
  if (st.rnode_interfaces.map Prod.fst).contains port_path then
    (st, [], false)
  else
    match env.attachResult with
    | some e =>
      (st, [mkMsg "transport_error"
        [("port", .jstr port_path), ("error", .jstr e)]], false)
    | none =>
      let ic := mkInterfaceConfig port_path config
      ({ st with rnode_interfaces :=
          st.rnode_interfaces ++ [(port_path, ⟨ic, 0, 0, true⟩)] },
       [mkMsg "transport_added"
         [("type", .jstr "rnode"), ("port", .jstr port_path),
          ("config", .jobj ic)]], true)

/-- Model of `RNSBridge.remove_rnode_transport(port_path)` (rns_bridge.py:372-401).
An unknown handle logs a warning and returns `False` with no emission; a
raising `detach()` is caught before the `del`, leaving the entry in
place. -/
def remove_rnode_transport (st : BridgeState) (env : Env)
    (port_path : String) : BridgeState × List OutMsg × Bool :=
  if (st.rnode_interfaces.map Prod.fst).contains port_path then
    match env.detachResult with
    | some _ => (st, [], false)
    | none =>
      ({ st with rnode_interfaces :=
          st.rnode_interfaces.filter (fun p => p.1 ≠ port_path) },
       [mkMsg "transport_removed"
         [("type", .jstr "rnode"), ("port", .jstr port_path)]], true)
  else
    (st, [], false)

/-- Model of `RNSBridge.list_transports()` (rns_bridge.py:403-429): one
`transports_list` event enumerating every tracked transport. -/
def list_transports (st : BridgeState) : List OutMsg :=
  let transports := st.rnode_interfaces.map (fun p =>
    JVal.jobj
      [("type", .jstr "rnode"), ("port", .jstr p.1),
       ("connected", .jbool p.2.connected),
       ("messages_sent", .jnum p.2.messages_sent),
       ("messages_received", .jnum p.2.messages_received),
       ("config", .jobj p.2.config)])
  [mkMsg "transports_list"
    [("transports", .jarr transports), ("total", .jnum transports.length)]]

/-- Model of `RNSBridge.announce()` (rns_bridge.py:298-307). -/
def announce (st : BridgeState) (env : Env) : List OutMsg :=
  match env.announceResult with
  | some _ => []
  | none => [mkMsg "announce_sent" [("destination_hash", .jstr st.local_hash)]]

/-- Model of `RNSBridge.handle_command(command)` (rns_bridge.py:431-487).  A
non-object `command` raises `AttributeError` at `command.get`, caught by
the surrounding `except`, which logs and emits nothing.  Likewise a
non-object `data` value raises at `data.get` inside the branches that
read fields from it.  Non-string `port` values are not modelled: the
registry keys are device-path strings (a truthy non-string port would
reach `add_rnode_transport`/`remove_rnode_transport` and raise inside,
emitting `transport_error` resp. nothing; no claim exercises this). -/
def handle_command (st : BridgeState) (env : Env) (cmd : JVal) :
    BridgeState × List OutMsg :=
  match cmd with
  | .jobj fields =>
    -- `cmd_type == "send"` etc. can only hold when the value is a string,
    -- so only the string payload of `command.get("type")` is compared.
    let cmd_type : Option String :=
      match getField fields "type" with
      | some (.jstr t) => some t
      | _ => none
    let data := (getField fields "data").getD (.jobj [])
    if cmd_type = some "send" then
      match data with
      | .jobj d =>
        let dest_hash := getField d "destination_hash"
        let text := getField d "text"
        if optTruthy dest_hash && optTruthy text then
          send_packet st env (dest_hash.getD .jnull) (text.getD .jnull)
        else
          (st, [])
      | _ => (st, [])
    else if cmd_type = some "announce" then
      (st, announce st env)
    else if cmd_type = some "ping" then
      (st, [mkMsg "pong" []])
    else if cmd_type = some "shutdown" then
      ({ st with running := false }, [])
    else if cmd_type = some "add_rnode" then
      match data with
      | .jobj d =>
        match getField d "port" with
        | some (.jstr p) =>
          if !p.isEmpty then
            let config :=
              match (getField d "config").getD (.jobj []) with
              | .jobj c => some c
              | _ => none
            let r := add_rnode_transport st env p config
            (r.1, r.2.1)
          else (st, [])
        | _ => (st, [])
      | _ => (st, [])
    else if cmd_type = some "remove_rnode" then
      match data with
      | .jobj d =>
        match getField d "port" with
        | some (.jstr p) =>
          if !p.isEmpty then
            let r := remove_rnode_transport st env p
            (r.1, r.2.1)
          else (st, [])
        | _ => (st, [])
      | _ => (st, [])
    else if cmd_type = some "list_transports" then
      (st, list_transports st)
    else
      (st, [])
  | _ => (st, [])

/-- One line read by `listen_stdin` (rns_bridge.py:489-511), after
`line.strip()`: empty, undecodable by `json.loads`, or a JSON value. -/
inductive LineInput where
  | blank : LineInput
  | garbage : LineInput
  | parsed : JVal → LineInput

/-- The stdin intake loop of `listen_stdin`: blank lines are skipped,
`json.JSONDecodeError` is caught and logged, any exception escaping
`handle_command`'s own handler is caught, and the loop stops only when
`self.running` is false (or input ends). -/
def listen_stdin (st : BridgeState) (env : Env) :
    List LineInput → BridgeState × List OutMsg
  | [] => (st, [])
  | l :: rest =>
    if !st.running then (st, [])
    else
      match l with
      | .blank => listen_stdin st env rest
      | .garbage => listen_stdin st env rest
      | .parsed v =>
        let r := handle_command st env v
        let r' := listen_stdin r.1 env rest
        (r'.1, r.2 ++ r'.2)

/-- The registries are empty and the bridge is running once
`initialize_rns` has completed (rns_bridge.py:57-77,205); the local
destination hash is abstract. -/
def initialState (localHash : String) : BridgeState :=
  ⟨[], [], [], true, localHash⟩

/-- A whole run of `link_established` callbacks (each carrying the peer
destination-hash bytes and the formatted link id), applied in arrival
order. -/
def runLinks (st : BridgeState) (evs : List (List Nat × String)) : BridgeState :=
  evs.foldl (fun s e => (link_established s e.1 e.2).1) st

def lbrace : Char := Char.ofNat 123

def rbrace : Char := Char.ofNat 125

/-- Decimal digit character. -/
def digitChar (n : Nat) : Char :=
  "0123456789".data.getD (n % 10) '0'

def natDigitsAux : Nat → Nat → List Char
  | 0, _ => []
  | fuel + 1, n =>
    if n < 10 then [digitChar n]
    else natDigitsAux fuel (n / 10) ++ [digitChar (n % 10)]

/-- Decimal rendering of a natural number. -/
def natDigits (n : Nat) : List Char :=
  natDigitsAux (n + 1) n

/-- Decimal rendering of an integer, as `json.dumps` prints it. -/
def intDigits (i : Int) : List Char :=
  if i < 0 then '-' :: natDigits i.natAbs else natDigits i.natAbs

/-- Escaping of one character by `json.dumps` inside a string literal (the
`ensure_ascii` escaping of non-ASCII characters is omitted: it maps them
to `\uXXXX` sequences built from the same digit characters and affects
neither field structure nor the absence of raw newlines). -/
def escChar (c : Char) : List Char :=
  if c = '"' then ['\\', '"']
  else if c = '\\' then ['\\', '\\']
  else if c = '\n' then ['\\', 'n']
  else if c = '\r' then ['\\', 'r']
  else if c = '\t' then ['\\', 't']
  else if c = Char.ofNat 8 then ['\\', 'b']
  else if c = Char.ofNat 12 then ['\\', 'f']
  else if c.toNat < 32 then
    ['\\', 'u', '0', '0', hexDigit (c.toNat / 16), hexDigit c.toNat]
  else [c]

/-- A JSON string literal: quotes around the escaped characters. -/
def escString (s : String) : List Char :=
  '"' :: s.data.flatMap escChar ++ ['"']

mutual

/-- Serialization as `json.dumps` performs it, with default separators. -/
def serializeJVal : JVal → List Char
  | .jnull => "null".data
  | .jbool true => "true".data
  | .jbool false => "false".data
  | .jnum i => intDigits i
  | .jstr s => escString s
  | .jarr l => '[' :: serializeArr l ++ [']']
  | .jobj l => lbrace :: serializeObjFields l ++ [rbrace]

def serializeArr : List JVal → List Char
  | [] => []
  | v :: rest =>
    serializeJVal v ++ (if rest.isEmpty then [] else [',', ' ']) ++ serializeArr rest

def serializeObjFields : List (String × JVal) → List Char
  | [] => []
  | (k, v) :: rest =>
    escString k ++ (':' :: ' ' :: serializeJVal v) ++
      (if rest.isEmpty then [] else [',', ' ']) ++ serializeObjFields rest

end

/-- Model of `RNSBridge.send_message(msg_type, data)` (rns_bridge.py:130-137):
`json.dumps({"type": msg_type, "data": data, "timestamp": time.time()})`
followed by a newline, written and flushed as one unit (`sys.stdout.write`
of the whole line, then `sys.stdout.flush()`).  The wall clock is the
abstract tick `ts` (`time.time()` returns a float; its rendering does not
affect any property proved here, so it is modelled as an integer). -/
def send_message (msg_type : String) (data : List (String × JVal)) (ts : Int) : List Char :=
  serializeJVal (.jobj
    [("type", .jstr msg_type), ("data", .jobj data), ("timestamp", .jnum ts)]) ++ ['\n']

/-- An environment in which every external RNS call succeeds and a packet
send yields a receipt formatted as `"aa"`. -/
def env0 : Env := ⟨.ok (some "aa"), none, none, none⟩

/-- An environment in which a packet send returns no receipt. -/
def envNoReceipt : Env := ⟨.ok none, none, none, none⟩

/-- The wire form of `{"type": "ping", "data": {}}`. -/
def pingCmd : JVal := .jobj [("type", .jstr "ping"), ("data", .jobj [])]

/-- A sample registry state that already tracks an RNode on
`/dev/ttyUSB0`. -/
def stUSB0 : BridgeState :=
  ⟨[], [], [("/dev/ttyUSB0", ⟨mkInterfaceConfig "/dev/ttyUSB0" none, 0, 0, true⟩)],
   true, "lh"⟩

/-!  ## Theorems  -/

theorem getD_default_or_mem (l : List Char) (i : Nat) (d : Char) :
    l.getD i d = d ∨ l.getD i d ∈ l := by
  induction l generalizing i with
  | nil => left; simp [List.getD]
  | cons c cs ih =>
    cases i with
    | zero => right; simp
    | succ j =>
      rcases ih j with h | h
      · left; simpa using h
      · right; simp only [List.getD_cons_succ]; exact List.mem_cons_of_mem _ h

theorem hexDigit_mem (n : Nat) : hexDigit n ∈ "0123456789abcdef".data := by
  unfold hexDigit
  rcases getD_default_or_mem "0123456789abcdef".data (n % 16) '0' with h | h
  · rw [h]; decide
  · exact h

theorem hexDigit_not_newline (n : Nat) : hexDigit n ≠ '\n' := by
  intro e
  have h := hexDigit_mem n
  rw [e] at h
  revert h; decide

theorem digitChar_not_newline (n : Nat) : digitChar n ≠ '\n' := by
  unfold digitChar
  rcases getD_default_or_mem "0123456789".data (n % 10) '0' with h | h
  · rw [h]; decide
  · intro e; rw [e] at h; revert h; decide

theorem natDigitsAux_not_newline (fuel n : Nat) : '\n' ∉ natDigitsAux fuel n := by
  induction fuel generalizing n with
  | zero => simp [natDigitsAux]
  | succ f ih =>
    simp only [natDigitsAux]
    split
    · intro h
      rcases List.mem_singleton.mp h with e
      exact digitChar_not_newline n e.symm
    · intro h
      rcases List.mem_append.mp h with h | h
      · exact ih _ h
      · exact digitChar_not_newline _ (List.mem_singleton.mp h).symm

theorem intDigits_not_newline (i : Int) : '\n' ∉ intDigits i := by
  unfold intDigits
  split
  · intro h
    rcases List.mem_cons.mp h with h | h
    · exact absurd h (by decide)
    · exact natDigitsAux_not_newline _ _ h
  · exact natDigitsAux_not_newline _ _

theorem escChar_not_newline (c : Char) : '\n' ∉ escChar c := by
  unfold escChar
  split_ifs with h1 h2 h3 h4 h5 h6 h7 h8
  · decide
  · decide
  · decide
  · decide
  · decide
  · decide
  · decide
  · intro h
    rcases List.mem_cons.mp h with h | h
    · exact absurd h (by decide)
    rcases List.mem_cons.mp h with h | h
    · exact absurd h (by decide)
    rcases List.mem_cons.mp h with h | h
    · exact absurd h (by decide)
    rcases List.mem_cons.mp h with h | h
    · exact absurd h (by decide)
    rcases List.mem_cons.mp h with h | h
    · exact hexDigit_not_newline _ h.symm
    rcases List.mem_cons.mp h with h | h
    · exact hexDigit_not_newline _ h.symm
    · exact absurd h (by simp)
  · intro h
    rcases List.mem_singleton.mp h with e
    exact h3 e.symm

theorem escString_not_newline (s : String) : '\n' ∉ escString s := by
  unfold escString
  intro h
  rcases List.mem_cons.mp h with h | h
  · exact absurd h (by decide)
  rcases List.mem_append.mp h with h | h
  · rcases List.mem_flatMap.mp h with ⟨c, _, hc⟩
    exact escChar_not_newline c hc
  · exact absurd h (by decide)

mutual

theorem serializeJVal_not_newline : ∀ v : JVal, '\n' ∉ serializeJVal v
  | .jnull => by simp only [serializeJVal]; decide
  | .jbool true => by simp only [serializeJVal]; decide
  | .jbool false => by simp only [serializeJVal]; decide
  | .jnum i => by simp only [serializeJVal]; exact intDigits_not_newline i
  | .jstr s => by simp only [serializeJVal]; exact escString_not_newline s
  | .jarr l => by
    simp only [serializeJVal]
    intro h
    rcases List.mem_cons.mp h with h | h
    · exact absurd h (by decide)
    rcases List.mem_append.mp h with h | h
    · exact serializeArr_not_newline l h
    · exact absurd h (by decide)
  | .jobj l => by
    simp only [serializeJVal]
    intro h
    rcases List.mem_cons.mp h with h | h
    · exact absurd h (by decide)
    rcases List.mem_append.mp h with h | h
    · exact serializeObjFields_not_newline l h
    · exact absurd h (by decide)

theorem serializeArr_not_newline : ∀ l : List JVal, '\n' ∉ serializeArr l
  | [] => by simp [serializeArr]
  | v :: rest => by
    simp only [serializeArr]
    intro h
    rcases List.mem_append.mp h with h | h
    · rcases List.mem_append.mp h with h | h
      · exact serializeJVal_not_newline v h
      · rcases rest.isEmpty.eq_false_or_eq_true with he | he <;> rw [he] at h
        · exact absurd h (by decide)
        · exact absurd h (by decide)
    · exact serializeArr_not_newline rest h

theorem serializeObjFields_not_newline :
    ∀ l : List (String × JVal), '\n' ∉ serializeObjFields l
  | [] => by simp [serializeObjFields]
  | (k, v) :: rest => by
    simp only [serializeObjFields]
    intro h
    rcases List.mem_append.mp h with h | h
    · rcases List.mem_append.mp h with h | h
      · rcases List.mem_append.mp h with h | h
        · exact escString_not_newline k h
        rcases List.mem_cons.mp h with h | h
        · exact absurd h (by decide)
        rcases List.mem_cons.mp h with h | h
        · exact absurd h (by decide)
        · exact serializeJVal_not_newline v h
      · rcases rest.isEmpty.eq_false_or_eq_true with he | he <;> rw [he] at h
        · exact absurd h (by decide)
        · exact absurd h (by decide)
    · exact serializeObjFields_not_newline rest h

end

/-- C5: every event written to the output stream by `send_message` is one
newline-terminated line whose body contains no newline and is the JSON
serialization of an object with exactly the three top-level fields
`type`, `data` and `timestamp`, written and flushed as a single unit. -/
theorem C5_event_line_shape (t : String) (d : List (String × JVal)) (ts : Int) :
    ∃ body : List Char,
      send_message t d ts = body ++ ['\n'] ∧
      '\n' ∉ body ∧
      body = serializeJVal (.jobj
        [("type", .jstr t), ("data", .jobj d), ("timestamp", .jnum ts)]) ∧
      ([("type", JVal.jstr t), ("data", JVal.jobj d),
        ("timestamp", JVal.jnum ts)].map Prod.fst) = ["type", "data", "timestamp"] := by
  exact ⟨_, rfl, serializeJVal_not_newline _, rfl, rfl⟩

/-- Dispatch of a well-formed `send` command reduces to the field check
and `send_packet` (rns_bridge.py:437-444). -/
theorem handle_command_send (st : BridgeState) (env : Env) (d : List (String × JVal)) :
    handle_command st env (.jobj [("type", .jstr "send"), ("data", .jobj d)]) =
      (if optTruthy (getField d "destination_hash") && optTruthy (getField d "text")
       then send_packet st env ((getField d "destination_hash").getD .jnull)
              ((getField d "text").getD .jnull)
       else (st, [])) := rfl

theorem nonempty_isEmpty_false {s : String} (h : s ≠ "") : s.isEmpty = false := by
  cases hE : s.isEmpty
  · rfl
  · exact absurd ((String.isEmpty_iff s).mp hE) h

/-- Lemma: `send_packet` with a string destination hash emits exactly one event,
tagged `send_success` or `send_failed`, echoing the hash verbatim. -/
theorem send_packet_one_event (st : BridgeState) (env : Env) (s : String) (t : JVal) :
    ∃ m : OutMsg, (send_packet st env (.jstr s) t).2 = [m] ∧
      (m.type = "send_success" ∨ m.type = "send_failed") ∧
      getField m.data "destination_hash" = some (.jstr s) := by
  cases hhex : fromhexOk s
  · refine ⟨mkMsg "send_failed" [("destination_hash", .jstr s),
      ("error", .jstr "ValueError: non-hexadecimal number found in fromhex arg")],
      ?_, Or.inr rfl, rfl⟩
    simp only [send_packet]
    rw [hhex]
    simp
  · cases t with
    | jstr t' =>
      cases hout : env.sendOutcome with
      | ok o =>
        cases o with
        | some r =>
          refine ⟨mkMsg "send_success" [("destination_hash", .jstr s),
            ("packet_id", .jstr r)], ?_, Or.inl rfl, rfl⟩
          simp only [send_packet]
          rw [hhex, hout]
          simp
        | none =>
          refine ⟨mkMsg "send_failed" [("destination_hash", .jstr s),
            ("error", .jstr "No receipt received")], ?_, Or.inr rfl, rfl⟩
          simp only [send_packet]
          rw [hhex, hout]
          simp
      | error e =>
        refine ⟨mkMsg "send_failed" [("destination_hash", .jstr s),
          ("error", .jstr e)], ?_, Or.inr rfl, rfl⟩
        simp only [send_packet]
        rw [hhex, hout]
        simp
    | jnull =>
      refine ⟨mkMsg "send_failed" [("destination_hash", .jstr s),
        ("error", .jstr "AttributeError: encode")], ?_, Or.inr rfl, rfl⟩
      simp only [send_packet]
      rw [hhex]
      simp
    | jbool b =>
      refine ⟨mkMsg "send_failed" [("destination_hash", .jstr s),
        ("error", .jstr "AttributeError: encode")], ?_, Or.inr rfl, rfl⟩
      simp only [send_packet]
      rw [hhex]
      simp
    | jnum n =>
      refine ⟨mkMsg "send_failed" [("destination_hash", .jstr s),
        ("error", .jstr "AttributeError: encode")], ?_, Or.inr rfl, rfl⟩
      simp only [send_packet]
      rw [hhex]
      simp
    | jarr l =>
      refine ⟨mkMsg "send_failed" [("destination_hash", .jstr s),
        ("error", .jstr "AttributeError: encode")], ?_, Or.inr rfl, rfl⟩
      simp only [send_packet]
      rw [hhex]
      simp
    | jobj l =>
      refine ⟨mkMsg "send_failed" [("destination_hash", .jstr s),
        ("error", .jstr "AttributeError: encode")], ?_, Or.inr rfl, rfl⟩
      simp only [send_packet]
      rw [hhex]
      simp

/-- C1: for every `send` command whose `destination_hash` and `text`
fields are present and non-empty strings, dispatch emits exactly one
event, it is `send_success` or `send_failed` (never both, never neither),
and its `destination_hash` field equals the input's hash string. -/
theorem C1_send_dispatch_exactly_one (st : BridgeState) (env : Env)
    (d : List (String × JVal)) (dh tx : String)
    (hdh : getField d "destination_hash" = some (.jstr dh)) (hdh' : dh ≠ "")
    (htx : getField d "text" = some (.jstr tx)) (htx' : tx ≠ "") :
    ∃ m : OutMsg,
      (handle_command st env (.jobj [("type", .jstr "send"), ("data", .jobj d)])).2 = [m] ∧
      (m.type = "send_success" ∨ m.type = "send_failed") ∧
      ¬(m.type = "send_success" ∧ m.type = "send_failed") ∧
      getField m.data "destination_hash" = some (.jstr dh) := by
  rw [handle_command_send, hdh, htx]
  have h1 : optTruthy (some (JVal.jstr dh)) = true := by
    simp [optTruthy, jtruthy, nonempty_isEmpty_false hdh']
  have h2 : optTruthy (some (JVal.jstr tx)) = true := by
    simp [optTruthy, jtruthy, nonempty_isEmpty_false htx']
  rw [h1, h2]
  simp only [Bool.and_self, if_true, Option.getD_some]
  obtain ⟨m, hm1, hm2, hm3⟩ := send_packet_one_event st env dh (.jstr tx)
  refine ⟨m, hm1, hm2, ?_, hm3⟩
  rintro ⟨ha, hb⟩
  rw [ha] at hb
  exact absurd hb (by decide)

/-- C1 witness: a concrete valid send command, in an environment where the
packet send yields a receipt, emits exactly one matching event. -/
theorem C1_witness :
    (getField [("destination_hash", JVal.jstr "ab"), ("text", JVal.jstr "hi")]
        "destination_hash" = some (.jstr "ab") ∧ "ab" ≠ "" ∧ "hi" ≠ "") ∧
    (∃ m : OutMsg,
      (handle_command (initialState "lh") env0
        (.jobj [("type", .jstr "send"),
                ("data", .jobj [("destination_hash", JVal.jstr "ab"),
                                ("text", JVal.jstr "hi")])])).2 = [m] ∧
      (m.type = "send_success" ∨ m.type = "send_failed") ∧
      ¬(m.type = "send_success" ∧ m.type = "send_failed") ∧
      getField m.data "destination_hash" = some (.jstr "ab")) :=
  ⟨⟨rfl, by decide, by decide⟩,
   C1_send_dispatch_exactly_one (initialState "lh") env0 _ "ab" "hi"
     rfl (by decide) rfl (by decide)⟩

/-- C9: a `send` command whose `destination_hash` or `text` is absent,
null or the empty string is dropped without any emission and without any
state change (in particular the remote-destination cache is untouched). -/
theorem C9_invalid_send_dropped (st : BridgeState) (env : Env)
    (d : List (String × JVal))
    (h : getField d "destination_hash" = none ∨
         getField d "destination_hash" = some .jnull ∨
         getField d "destination_hash" = some (.jstr "") ∨
         getField d "text" = none ∨
         getField d "text" = some .jnull ∨
         getField d "text" = some (.jstr "")) :
    handle_command st env (.jobj [("type", .jstr "send"), ("data", .jobj d)]) = (st, []) := by
  rw [handle_command_send]
  have e0 : optTruthy (none : Option JVal) = false := rfl
  have e1 : optTruthy (some JVal.jnull) = false := rfl
  have e2 : optTruthy (some (JVal.jstr "")) = false := by decide
  have hf : (optTruthy (getField d "destination_hash") &&
      optTruthy (getField d "text")) = false := by
    rcases h with h | h | h | h | h | h <;> rw [h] <;>
      simp [e0, e1, e2]
  rw [hf]
  simp

/-- C9 witness: a send with a valid destination hash but empty text is
silently dropped, leaving the state untouched. -/
theorem C9_witness :
    (getField [("destination_hash", JVal.jstr "ab"), ("text", JVal.jstr "")]
        "text" = some (.jstr "")) ∧
    handle_command (initialState "lh") env0
      (.jobj [("type", .jstr "send"),
              ("data", .jobj [("destination_hash", JVal.jstr "ab"),
                              ("text", JVal.jstr "")])]) = (initialState "lh", []) :=
  ⟨rfl,
   C9_invalid_send_dropped (initialState "lh") env0 _
     (Or.inr (Or.inr (Or.inr (Or.inr (Or.inr rfl)))))⟩

/-- Attaching over an existing handle returns `False` before any state
change or emission (rns_bridge.py:312-314). -/
theorem add_rnode_transport_duplicate (st : BridgeState) (env : Env)
    (p : String) (cfg : Option (List (String × JVal)))
    (h : (st.rnode_interfaces.map Prod.fst).contains p = true) :
    add_rnode_transport st env p cfg = (st, [], false) := by
  unfold add_rnode_transport
  rw [h]
  simp

/-- C3: attaching a transport whose handle is already present is rejected
with the duplicate condition (`False` return, no emission) and leaves the
whole registry — the existing entry and every other entry — exactly as it
was. -/
theorem C3_duplicate_attach_frame (st : BridgeState) (env : Env)
    (p : String) (cfg : Option (List (String × JVal)))
    (h : (st.rnode_interfaces.map Prod.fst).contains p = true) :
    add_rnode_transport st env p cfg = (st, [], false) ∧
    (add_rnode_transport st env p cfg).1.rnode_interfaces = st.rnode_interfaces := by
  have hd := add_rnode_transport_duplicate st env p cfg h
  exact ⟨hd, by rw [hd]⟩

/-- C3 witness: re-attaching `/dev/ttyUSB0` over a registry that already
tracks it changes nothing and returns the duplicate condition. -/
theorem C3_witness :
    (stUSB0.rnode_interfaces.map Prod.fst).contains "/dev/ttyUSB0" = true ∧
    add_rnode_transport stUSB0
      env0 "/dev/ttyUSB0" (some [("frequency", JVal.jnum 868000000)]) =
      (stUSB0, [], false) :=
  ⟨rfl,
   (C3_duplicate_attach_frame stUSB0 env0 "/dev/ttyUSB0"
     (some [("frequency", JVal.jnum 868000000)]) rfl).1⟩

/-- Dispatch of an `add_rnode` command (rns_bridge.py:460-467). -/
theorem handle_command_add_rnode (st : BridgeState) (env : Env)
    (d : List (String × JVal)) :
    handle_command st env (.jobj [("type", .jstr "add_rnode"), ("data", .jobj d)]) =
      (match getField d "port" with
       | some (.jstr p) =>
         if !p.isEmpty then
           let config :=
             match (getField d "config").getD (.jobj []) with
             | .jobj c => some c
             | _ => none
           let r := add_rnode_transport st env p config
           (r.1, r.2.1)
         else (st, [])
       | _ => (st, [])) := rfl

/-- Dispatch of `add_rnode` once the port field is known to be a string. -/
theorem handle_command_add_rnode_port (st : BridgeState) (env : Env)
    (d : List (String × JVal)) (p : String)
    (hp : getField d "port" = some (.jstr p)) :
    handle_command st env (.jobj [("type", .jstr "add_rnode"), ("data", .jobj d)]) =
      (if !p.isEmpty then
         let config :=
           match (getField d "config").getD (.jobj []) with
           | .jobj c => some c
           | _ => none
         let r := add_rnode_transport st env p config
         (r.1, r.2.1)
       else (st, [])) := by
  rw [handle_command_add_rnode, hp]

/-- C10: an `add_rnode` command whose port handle is already attached
emits no event at all — neither `transport_added` nor `transport_error` —
so the rejection is observable only on the diagnostic stream. -/
theorem C10_duplicate_add_rnode_silent (st : BridgeState) (env : Env)
    (d : List (String × JVal)) (p : String)
    (hp : getField d "port" = some (.jstr p)) (hp' : p ≠ "")
    (hdup : (st.rnode_interfaces.map Prod.fst).contains p = true) :
    handle_command st env (.jobj [("type", .jstr "add_rnode"), ("data", .jobj d)])
      = (st, []) := by
  rw [handle_command_add_rnode_port st env d p hp]
  rw [nonempty_isEmpty_false hp']
  have hr : ∀ c, add_rnode_transport st env p c = (st, [], false) :=
    fun c => add_rnode_transport_duplicate st env p c hdup
  simp [hr]

/-- C10 witness: a duplicate `add_rnode` for a concrete tracked port
yields no event. -/
theorem C10_witness :
    getField [("port", JVal.jstr "/dev/ttyUSB0")] "port" = some (.jstr "/dev/ttyUSB0") ∧
    handle_command stUSB0
      env0 (.jobj [("type", .jstr "add_rnode"),
                   ("data", .jobj [("port", JVal.jstr "/dev/ttyUSB0")])]) =
      (stUSB0, []) :=
  ⟨rfl,
   C10_duplicate_add_rnode_silent stUSB0 env0
     [("port", JVal.jstr "/dev/ttyUSB0")] "/dev/ttyUSB0" rfl (by decide) rfl⟩

/-- Python `config.get(k, d) if config else d` agrees with plain lookup-or-default
whenever the config dict is actually passed (empty or not). -/
theorem cfgGet_some (c : List (String × JVal)) (k : String) (d : JVal) :
    cfgGet (some c) k d = (getField c k).getD d := by
  cases c with
  | nil => rfl
  | cons a l => rfl

/-- C6: a successful `add_rnode` fills every absent option with its fixed
default (speed/baudRate 115200, frequency 915000000, bandwidth 125000,
txpower 17, spreadingfactor 7, codingrate 5), lets every supplied option
override its default, and emits `transport_added` carrying exactly the
resulting config. -/
theorem C6_add_rnode_defaults (st : BridgeState) (env : Env) (p : String)
    (cfg : List (String × JVal))
    (hfresh : (st.rnode_interfaces.map Prod.fst).contains p = false)
    (hok : env.attachResult = none) :
    (add_rnode_transport st env p (some cfg)).2.1 =
      [mkMsg "transport_added"
        [("type", .jstr "rnode"), ("port", .jstr p),
         ("config", .jobj (mkInterfaceConfig p (some cfg)))]] ∧
    getField (mkInterfaceConfig p (some cfg)) "speed" =
      some ((getField cfg "baudRate").getD (.jnum 115200)) ∧
    getField (mkInterfaceConfig p (some cfg)) "frequency" =
      some ((getField cfg "frequency").getD (.jnum 915000000)) ∧
    getField (mkInterfaceConfig p (some cfg)) "bandwidth" =
      some ((getField cfg "bandwidth").getD (.jnum 125000)) ∧
    getField (mkInterfaceConfig p (some cfg)) "txpower" =
      some ((getField cfg "txPower").getD (.jnum 17)) ∧
    getField (mkInterfaceConfig p (some cfg)) "spreadingfactor" =
      some ((getField cfg "spreadingFactor").getD (.jnum 7)) ∧
    getField (mkInterfaceConfig p (some cfg)) "codingrate" =
      some ((getField cfg "codingRate").getD (.jnum 5)) := by
  refine ⟨?_, ?_, ?_, ?_, ?_, ?_, ?_⟩
  · unfold add_rnode_transport
    rw [hfresh, hok]
    simp
  · exact congrArg some (cfgGet_some cfg "baudRate" (.jnum 115200))
  · exact congrArg some (cfgGet_some cfg "frequency" (.jnum 915000000))
  · exact congrArg some (cfgGet_some cfg "bandwidth" (.jnum 125000))
  · exact congrArg some (cfgGet_some cfg "txPower" (.jnum 17))
  · exact congrArg some (cfgGet_some cfg "spreadingFactor" (.jnum 7))
  · exact congrArg some (cfgGet_some cfg "codingRate" (.jnum 5))

/-- C6 witness: a config supplying only `frequency = 868000000` yields a
tracked config with that frequency and the default txpower 17. -/
theorem C6_witness :
    (((initialState "lh").rnode_interfaces.map Prod.fst).contains "/dev/ttyUSB0" = false ∧
      env0.attachResult = none) ∧
    getField (mkInterfaceConfig "/dev/ttyUSB0"
      (some [("frequency", JVal.jnum 868000000)])) "frequency" =
      some (.jnum 868000000) ∧
    getField (mkInterfaceConfig "/dev/ttyUSB0"
      (some [("frequency", JVal.jnum 868000000)])) "txpower" = some (.jnum 17) := by
  have h := C6_add_rnode_defaults (initialState "lh") env0 "/dev/ttyUSB0"
    [("frequency", JVal.jnum 868000000)] rfl rfl
  exact ⟨⟨rfl, rfl⟩, h.2.2.1, h.2.2.2.2.1⟩

/-- C7: detaching an unknown handle returns the not-found outcome without
raising and changes nothing, and `list_transports` emits a
`transports_list` whose entries never carry that handle as `port`. -/
theorem C7_detach_unknown (st : BridgeState) (env : Env) (p : String)
    (h : (st.rnode_interfaces.map Prod.fst).contains p = false) :
    remove_rnode_transport st env p = (st, [], false) ∧
    ∃ L : List JVal,
      list_transports st =
        [mkMsg "transports_list"
          [("transports", .jarr L), ("total", .jnum L.length)]] ∧
      ∀ f : List (String × JVal), JVal.jobj f ∈ L →
        getField f "port" ≠ some (.jstr p) := by
  constructor
  · unfold remove_rnode_transport
    rw [h]
    simp
  · refine ⟨_, rfl, ?_⟩
    intro f hf hcontra
    rw [List.mem_map] at hf
    obtain ⟨e, he, hfe⟩ := hf
    have hf' : f = [("type", JVal.jstr "rnode"), ("port", .jstr e.1),
        ("connected", .jbool e.2.connected),
        ("messages_sent", .jnum e.2.messages_sent),
        ("messages_received", .jnum e.2.messages_received),
        ("config", .jobj e.2.config)] := by
      injection hfe with h'
      exact h'.symm
    subst hf'
    have hsome : some (JVal.jstr e.1) = some (JVal.jstr p) := hcontra
    have hep : e.1 = p := by
      injection Option.some.inj hsome
    have hmem : p ∈ st.rnode_interfaces.map Prod.fst :=
      List.mem_map.mpr ⟨e, he, hep⟩
    have hc : (st.rnode_interfaces.map Prod.fst).contains p = true := by
      simpa using hmem
    rw [hc] at h
    exact Bool.noConfusion h

/-- C7 witness: detaching an unattached handle on the fresh registry is a
no-op failure. -/
theorem C7_witness :
    ((initialState "lh").rnode_interfaces.map Prod.fst).contains "/dev/ttyUSB1" = false ∧
    remove_rnode_transport (initialState "lh") env0 "/dev/ttyUSB1" =
      (initialState "lh", [], false) :=
  ⟨rfl, (C7_detach_unknown (initialState "lh") env0 "/dev/ttyUSB1" rfl).1⟩

/-- The post-state of a string-keyed `send_packet`: the cache gains the
supplied key verbatim when absent, exactly as `self.destinations[dest_hash]
= destination` does. -/
theorem send_packet_state (st : BridgeState) (env : Env) (s t : String)
    (hhex : fromhexOk s = true) :
    (send_packet st env (.jstr s) (.jstr t)).1 =
      (if st.destinations.contains s then st
       else { st with destinations := st.destinations ++ [s] }) := by
  simp only [send_packet]
  rw [hhex]
  cases h : env.sendOutcome with
  | error e => simp
  | ok o =>
    cases o with
    | none => simp
    | some r => simp

/-- C2 counterexample: two send commands whose destination hashes differ
only in hex-digit case create two distinct remote-destination cache
entries — the lookup is not normalized, refuting the claimed
case-insensitivity. -/
theorem C2_counterexample :
    ((send_packet
        ((send_packet (initialState "lh") env0 (.jstr "AB") (.jstr "x")).1)
        env0 (.jstr "ab") (.jstr "x")).1).destinations = ["AB", "ab"] ∧
    "AB" ≠ "ab" := by
  exact ⟨rfl, by decide⟩

/-- C2 amended: the remote-destination cache is keyed by the
`destination_hash` string exactly as supplied, with case-sensitive
lookup (a cached key is reused only on an exact match, and a new key is
appended verbatim otherwise); the link cache is keyed by the stack's hex
formatter, whose output uses only lowercase hexadecimal digits. -/
theorem C2_amended_cache_keys (st : BridgeState) (env : Env) (s t lid : String)
    (bs : List Nat) (hhex : fromhexOk s = true) :
    ((s ∈ st.destinations →
        (send_packet st env (.jstr s) (.jstr t)).1.destinations = st.destinations) ∧
     (s ∉ st.destinations →
        (send_packet st env (.jstr s) (.jstr t)).1.destinations
          = st.destinations ++ [s])) ∧
    (link_established st bs lid).1.links = dictInsert (hexrep bs) lid st.links ∧
    ∀ c ∈ (hexrep bs).data, c ∈ "0123456789abcdef".data := by
  refine ⟨⟨?_, ?_⟩, rfl, ?_⟩
  · intro hmem
    have hc : st.destinations.contains s = true := by simpa using hmem
    rw [send_packet_state st env s t hhex, hc]
    simp
  · intro hmem
    have hc : st.destinations.contains s = false := by simpa using hmem
    rw [send_packet_state st env s t hhex, hc]
    simp
  · intro c hc
    have hm : c ∈ bs.flatMap (fun b => [hexDigit (b / 16), hexDigit b]) := hc
    rw [List.mem_flatMap] at hm
    obtain ⟨b, _, hb⟩ := hm
    rcases List.mem_cons.mp hb with h1 | h1
    · rw [h1]; exact hexDigit_mem _
    · rw [List.mem_singleton.mp h1]; exact hexDigit_mem _

/-- C2 amended witness: a fresh cache gains the key `"ab"` verbatim. -/
theorem C2_amended_witness :
    fromhexOk "ab" = true ∧
    (send_packet (initialState "lh") env0 (.jstr "ab") (.jstr "x")).1.destinations
      = ["ab"] :=
  ⟨by decide,
   ((C2_amended_cache_keys (initialState "lh") env0 "ab" "x" "l1" [171]
      (by decide)).1.2) (by simp [initialState])⟩

theorem dictInsert_mem_keys {α : Type} (k a : String) (v : α) :
    ∀ l : List (String × α),
      (a ∈ (dictInsert k v l).map Prod.fst ↔ a = k ∨ a ∈ l.map Prod.fst)
  | [] => by simp [dictInsert]
  | (k', v') :: rest => by
    by_cases h : k' = k
    · subst h
      simp [dictInsert]
    · simp only [dictInsert, if_neg h, List.map_cons, List.mem_cons,
        dictInsert_mem_keys k a v rest]
      tauto

theorem dictInsert_keys_nodup {α : Type} (k : String) (v : α) :
    ∀ l : List (String × α),
      (l.map Prod.fst).Nodup → ((dictInsert k v l).map Prod.fst).Nodup
  | [] => by
    intro _
    simp [dictInsert]
  | (k', v') :: rest => by
    intro h
    rw [List.map_cons, List.nodup_cons] at h
    by_cases hk : k' = k
    · subst hk
      have he : dictInsert k' v ((k', v') :: rest) = (k', v) :: rest := by
        simp [dictInsert]
      rw [he, List.map_cons]
      exact List.nodup_cons.mpr h
    · have ih := dictInsert_keys_nodup k v rest h.2
      simp only [dictInsert, if_neg hk, List.map_cons, List.nodup_cons]
      refine ⟨?_, ih⟩
      rw [dictInsert_mem_keys]
      rintro (he | he)
      · exact hk he
      · exact h.1 he

theorem dictLookup_insert_self {α : Type} (k : String) (v : α) :
    ∀ l : List (String × α), dictLookup k (dictInsert k v l) = some v
  | [] => by simp [dictInsert, dictLookup]
  | (k', v') :: rest => by
    by_cases h : k' = k
    · simp [dictInsert, h, dictLookup]
    · simp [dictInsert, h, dictLookup, dictLookup_insert_self k v rest]

/-- C8: after any sequence of link-established callbacks the link registry
holds at most one entry per peer address hash, and each establishment
replaces the prior record for its peer (the key's lookup yields the most
recent link). -/
theorem C8_one_link_per_peer (st : BridgeState) (evs : List (List Nat × String))
    (h : (st.links.map Prod.fst).Nodup) :
    ((runLinks st evs).links.map Prod.fst).Nodup ∧
    (∀ k : String, ((runLinks st evs).links.map Prod.fst).count k ≤ 1) ∧
    ∀ (st' : BridgeState) (bs : List Nat) (lid : String),
      (link_established st' bs lid).1.links = dictInsert (hexrep bs) lid st'.links ∧
      dictLookup (hexrep bs) (link_established st' bs lid).1.links = some lid := by
  have hn : ∀ (evs' : List (List Nat × String)) (s : BridgeState),
      (s.links.map Prod.fst).Nodup → ((runLinks s evs').links.map Prod.fst).Nodup := by
    intro evs'
    induction evs' with
    | nil => intro s hs; exact hs
    | cons e rest ih =>
      intro s hs
      exact ih ((link_established s e.1 e.2).1) (dictInsert_keys_nodup _ _ _ hs)
  refine ⟨hn evs st h, ?_, ?_⟩
  · intro k
    exact List.nodup_iff_count_le_one.mp (hn evs st h) k
  · intro st' bs lid
    exact ⟨rfl, dictLookup_insert_self _ _ _⟩

/-- C8 witness: two establishments for the same peer leave a single,
duplicate-free tracked entry. -/
theorem C8_witness :
    ((initialState "lh").links.map Prod.fst).Nodup ∧
    ((runLinks (initialState "lh") [([171], "l1"), ([171], "l2")]).links.map
      Prod.fst).Nodup :=
  ⟨List.nodup_nil,
   (C8_one_link_per_peer (initialState "lh") [([171], "l1"), ([171], "l2")]
     List.nodup_nil).1⟩

theorem listen_stdin_not_running (st : BridgeState) (env : Env)
    (hr : st.running = false) : ∀ ls, listen_stdin st env ls = (st, []) := by
  intro ls
  cases ls with
  | nil => rfl
  | cons l rest => simp [listen_stdin, hr]

/-- A command that is not a JSON object raises at `command.get` and is
swallowed by `handle_command`'s own handler: no event, no state change. -/
theorem handle_command_nonobject (st : BridgeState) (env : Env) (v : JVal)
    (hv : ∀ f, v ≠ JVal.jobj f) :
    handle_command st env v = (st, []) := by
  cases v with
  | jobj f => exact absurd rfl (hv f)
  | jnull => rfl
  | jbool b => rfl
  | jnum n => rfl
  | jstr s => rfl
  | jarr l => rfl

/-- C4: a line that fails JSON decoding, or decodes to a non-object,
produces no event and does not terminate the intake loop — processing
continues exactly as if the line were absent, and a following well-formed
ping still yields pong. -/
theorem C4_malformed_line_skipped (st : BridgeState) (env : Env) (li : LineInput)
    (hbad : li = .garbage ∨ ∃ v, li = .parsed v ∧ ∀ f, v ≠ JVal.jobj f) :
    (∀ rest, listen_stdin st env (li :: rest) = listen_stdin st env rest) ∧
    listen_stdin st env [li] = (st, []) ∧
    (st.running = true →
      listen_stdin st env [li, .parsed pingCmd] = (st, [mkMsg "pong" []])) := by
  have hskip : ∀ rest, listen_stdin st env (li :: rest) = listen_stdin st env rest := by
    intro rest
    cases hr : st.running with
    | false =>
      rw [listen_stdin_not_running st env hr (li :: rest),
        listen_stdin_not_running st env hr rest]
    | true =>
      rcases hbad with h | ⟨v, h, hv⟩
      · subst h
        simp [listen_stdin, hr]
      · subst h
        simp [listen_stdin, hr, handle_command_nonobject st env v hv]
  refine ⟨hskip, ?_, ?_⟩
  · rw [hskip []]
    rfl
  · intro hr
    rw [hskip [LineInput.parsed pingCmd]]
    have hping : handle_command st env pingCmd = (st, [mkMsg "pong" []]) := rfl
    simp [listen_stdin, hr, hping]

/-- C4 witness: a non-object line (`5`) emits nothing and a following ping
round-trips to a single pong. -/
theorem C4_witness :
    (initialState "lh").running = true ∧
    listen_stdin (initialState "lh") env0 [.parsed (.jnum 5), .parsed pingCmd] =
      (initialState "lh", [mkMsg "pong" []]) :=
  ⟨rfl,
   (C4_malformed_line_skipped (initialState "lh") env0 (.parsed (.jnum 5))
     (Or.inr ⟨JVal.jnum 5, rfl, fun _ h => JVal.noConfusion h⟩)).2.2 rfl⟩
